import Mathlib

/-!
Verification development for the hear-me TTS engine stack
(src/hearme/engines/base.py, mock.py, kokoro.py, dia2.py, piper.py,
src/hearme/engines/registry.py, src/hearme/renderer.py).

The Python code is shallowly embedded: pure per-call behaviour becomes Lean
functions, the stateful parts (engine loaded flags, the registry instance
cache) are explicit state passing, Python exceptions become an explicit
PyResult sum, and byte strings become lists of naturals.  Outcomes of
external backends (the neural models, the filesystem) that the Python code
only forwards are abstracted as function parameters, so every theorem is
quantified over them.
-/

/-- Byte strings (Python bytes) as lists of byte values. -/
abbrev Bytes := List Nat

/-- Outcome of a Python call that can raise: a value or an exception message. -/
inductive PyResult (α : Type) where
  | ok (a : α)
  | exn (msg : String)
deriving Repr, DecidableEq

/-- An input script record, Python dict shaped like
`(speaker, text, pause_after)` with the same defaults that
`dict.get` supplies in `parse_script` and the engines. -/
structure Seg where
  speaker : String := "narrator"
  text : String := ""
  pause_after : ℚ := 1/2
deriving Repr, DecidableEq

/-- `hearme.engines.base.SynthesisSegment`. -/
structure SynthesisSegment where
  speaker : String
  text : String
  audio_data : Bytes
  duration_seconds : ℚ
  sample_rate : Nat := 24000
deriving Repr, DecidableEq

/-- `hearme.engines.base.SynthesisResult` (float durations modelled as ℚ). -/
structure SynthesisResult where
  success : Bool
  audio_data : Option Bytes := none
  duration_seconds : ℚ := 0
  format : String := "mp3"
  sample_rate : Nat := 24000
  segments : List SynthesisSegment := []
  error : Option String := none
deriving Repr, DecidableEq

/-- `hearme.renderer.ScriptSegment`. -/
structure ScriptSegment where
  speaker : String
  text : String
  pause_after : ℚ := 1/2
deriving Repr, DecidableEq

/-- `hearme.renderer.RenderResult`. -/
structure RenderResult where
  success : Bool
  output_path : Option String := none
  duration_seconds : ℚ := 0
  segment_count : Nat := 0
  engine_used : Option String := none
  format : String := "wav"
  error : Option String := none
deriving Repr, DecidableEq

/-- Rendering of an optional error the way a Python f-string renders it
(`None` when absent), as in `f"... : \x7bresult.error\x7d"`. -/
def pyStr : Option String → String
  | some s => s
  | none => "None"

/-- First-match association-list lookup; models Python `dict.get(key)` for
the dictionaries in this code, which are only ever extended with fresh keys. -/
def alookup {α : Type} : List (String × α) → String → Option α
  | [], _ => none
  | (k, v) :: rest, s => if k = s then some v else alookup rest s


/-- Python `str.lower()` for the ASCII names this code lower-cases,
modelled per character; provably equal to `String.toLower`. -/
def pyLower (s : String) : String :=
  ⟨s.data.map Char.toLower⟩

/-- Python `str.strip()`: drop whitespace from both ends of the character
sequence. -/
def pyStrip (s : String) : String :=
  ⟨((s.data.dropWhile Char.isWhitespace).reverse.dropWhile
      Char.isWhitespace).reverse⟩

/-- Whether `sub` occurs at the head of `l`. -/
def leadsWith : List Char → List Char → Bool
  | [], _ => true
  | _ :: _, [] => false
  | a :: as, b :: bs => a = b ∧ leadsWith as bs

/-- Fuel-driven body of `pyReplace`; the fuel is an upper bound on the
steps, each of which consumes at least one character when `sub` is
non-empty. -/
def pyReplaceGo (sub repl : List Char) : Nat → List Char → List Char
  | _, [] => []
  | 0, l => l
  | fuel + 1, c :: rest =>
    if leadsWith sub (c :: rest) then
      repl ++ pyReplaceGo sub repl fuel ((c :: rest).drop sub.length)
    else
      c :: pyReplaceGo sub repl fuel rest

/-- Python `str.replace(sub, repl)`: non-overlapping left-to-right
replacement (only ever called here with the non-empty pattern "engine"). -/
def pyReplace (s sub repl : String) : String :=
  ⟨pyReplaceGo sub.data repl.data (s.data.length + 1) s.data⟩

namespace BaseEngine

/-- Loop body of `BaseEngine.synthesize_multi` (base.py lines 244-269):
walks the segments carrying `all_audio`, `total_duration` and
`result_segments`.  `synth` abstracts `self.synthesize`, taking the text and
the voice that `voice_map.get(speaker, None)` resolved.  A successful
per-segment result always carries bytes in the real engines; the read uses
an empty-bytes default where Python would fault on a missing buffer. -/
def synthLoop (synth : String → Option String → SynthesisResult)
    (voice_map : List (String × String)) (format : String) :
    List Seg → List Bytes → ℚ → List SynthesisSegment → SynthesisResult
  | [], all_audio, total_duration, result_segments =>
    { success := true
      audio_data := some all_audio.flatten
      duration_seconds := total_duration
      format := format
      segments := result_segments }
  | seg :: rest, all_audio, total_duration, result_segments =>
    let speaker := seg.speaker
    let text := seg.text
    if pyStrip text = "" then
      synthLoop synth voice_map format rest all_audio total_duration result_segments
    else
      let voice := alookup voice_map speaker
      let result := synth text voice
      if result.success then
        synthLoop synth voice_map format rest
          (all_audio ++ [result.audio_data.getD []])
          (total_duration + result.duration_seconds)
          (result_segments ++ [{ speaker := speaker, text := text
                                 audio_data := result.audio_data.getD []
                                 duration_seconds := result.duration_seconds
                                 sample_rate := result.sample_rate }])
      else
        { success := false
          error := some ("Failed to synthesize segment for " ++ speaker ++ ": "
                          ++ pyStr result.error) }

/-- `BaseEngine.synthesize_multi` (base.py lines 222-280), the fallback
multi-speaker implementation for single-speaker engines. -/
def synthesize_multi (synth : String → Option String → SynthesisResult)
    (segments : List Seg) (voice_map : List (String × String))
    (format : String) : SynthesisResult :=
  if segments = [] then
    { success := false, error := some "No segments provided" }
  else
    synthLoop synth voice_map format segments [] 0 []

/-- The first segment at which the fallback loop aborts: the first segment
with non-whitespace text whose underlying `synthesize` call fails (segments
before it with non-whitespace text all succeeded, so the loop reaches it). -/
def firstFail (synth : String → Option String → SynthesisResult)
    (voice_map : List (String × String)) : List Seg → Option Seg
  | [] => none
  | seg :: rest =>
    if pyStrip seg.text = "" then firstFail synth voice_map rest
    else if (synth seg.text (alookup voice_map seg.speaker)).success then
      firstFail synth voice_map rest
    else
      some seg

end BaseEngine

/-- A synthesize stub that always succeeds with one byte of audio, playing
the role of any concrete single-speaker engine. -/
def okSynth : String → Option String → SynthesisResult := fun _ _ =>
  { success := true, audio_data := some [0], duration_seconds := 1 }

/-- A synthesize stub that always fails with error "boom". -/
def failSynth : String → Option String → SynthesisResult := fun _ _ =>
  { success := false, error := some "boom" }

/-- Lifecycle-relevant state of one engine instance: the memoized
availability probe and the loaded flag. -/
structure EngState where
  available : Bool
  loaded : Bool
deriving Repr, DecidableEq

namespace EngineLifecycle

/-- `BaseEngine.load` (base.py lines 180-187): sets the loaded flag, with no
availability check and no failure path. -/
def baseLoad (st : EngState) : EngState :=
  { st with loaded := true }

/-- `BaseEngine.unload` (base.py lines 189-196). -/
def baseUnload (st : EngState) : EngState :=
  { st with loaded := false }

/-- `MockEngine` does not override `load`; it inherits `BaseEngine.load`. -/
def mockLoad (st : EngState) : PyResult Unit × EngState :=
  (.ok (), baseLoad st)

/-- `MockEngine.is_available` (mock.py lines 42-44) is constantly true. -/
def mockAvailable : Bool := true

/-- `KokoroEngine` does not override `load`; it inherits `BaseEngine.load`
(kokoro.py defines no `load`, only `_ensure_loaded` used inside
`synthesize`). -/
def kokoroLoad (st : EngState) : PyResult Unit × EngState :=
  (.ok (), baseLoad st)

/-- `Dia2Engine.load` (dia2.py lines 106-166).  `backend` abstracts the
outcome of the model/runtime initialization that follows the availability
check; on an exception there the loaded flag is left unchanged (the flag is
only assigned after the resource is ready). -/
def dia2Load (st : EngState) (backend : PyResult Unit) : PyResult Unit × EngState :=
  if st.loaded then (.ok (), st)
  else if st.available = false then
    (.exn "Dia2 engine not installed or repo not found.", st)
  else
    match backend with
    | .ok _ => (.ok (), { st with loaded := true })
    | .exn m => (.exn m, st)

/-- `PiperEngine.load` (piper.py lines 72-92), same shape as `Dia2Engine.load`. -/
def piperLoad (st : EngState) (backend : PyResult Unit) : PyResult Unit × EngState :=
  if st.loaded then (.ok (), st)
  else if st.available = false then
    (.exn "Piper not installed. Run: pip install piper-tts", st)
  else
    match backend with
    | .ok _ => (.ok (), { st with loaded := true })
    | .exn m => (.exn m, st)

end EngineLifecycle

namespace Dia2Engine

/-- One step of the speaker-mapping loop of `Dia2Engine.synthesize_multi`
(dia2.py lines 248-269): state is `(speaker_mapping, speaker_count,
script_parts)`.  Blank segments are skipped; an unseen speaker is assigned
the marker `"S" + str(min(speaker_count, 2))` after the count increment. -/
def multiStep (st : List (String × String) × Nat × List String) (seg : Seg) :
    List (String × String) × Nat × List String :=
  let speaker := seg.speaker
  let text := pyStrip seg.text
  if text = "" then st
  else
    match alookup st.1 speaker with
    | some dia_speaker =>
      (st.1, st.2.1, st.2.2 ++ ["[" ++ dia_speaker ++ "] " ++ text])
    | none =>
      let speaker_count := st.2.1 + 1
      let dia_speaker := "S" ++ toString (min speaker_count 2)
      (st.1 ++ [(speaker, dia_speaker)], speaker_count,
        st.2.2 ++ ["[" ++ dia_speaker ++ "] " ++ text])

/-- The full mapping/parts state after `Dia2Engine.synthesize_multi` has
walked `segments`. -/
def multiState (segments : List Seg) : List (String × String) × Nat × List String :=
  segments.foldl multiStep ([], 0, [])

/-- The final `speaker_mapping` dictionary of one
`Dia2Engine.synthesize_multi` call. -/
def speakerMapping (segments : List Seg) : List (String × String) :=
  (multiState segments).1

/-- The `full_script` string (dia2.py line 271): the tagged parts joined
with single spaces. -/
def fullScript (segments : List Seg) : String :=
  " ".intercalate (multiState segments).2.2

/-- `Dia2Engine.synthesize_multi` (dia2.py lines 225-273) with `_generate`
abstracted as `gen` (it catches all its own exceptions and returns a failed
result, so it is a total function).  The auto-load at entry is modelled by
the renderer embedding, which loads before synthesis. -/
def synthesize_multi (gen : String → SynthesisResult) (segments : List Seg) :
    SynthesisResult :=
  if segments = [] then
    { success := false, error := some "No segments provided" }
  else
    gen (fullScript segments)

/-- Whether a speaker label gets a marker in a `synthesize_multi` call:
some segment carries it with non-whitespace text. -/
def appears (speaker : String) (segments : List Seg) : Bool :=
  segments.any fun seg => seg.speaker = speaker ∧ pyStrip seg.text ≠ ""

/-- The speaker of the first segment with non-whitespace text — the first
speaker the mapping loop sees. -/
def firstSpeaker : List Seg → Option String
  | [] => none
  | seg :: rest =>
    if pyStrip seg.text = "" then firstSpeaker rest else some seg.speaker

end Dia2Engine

namespace EngineRegistry

/-- A cached engine instance, reduced to what registry claims observe: its
reported name and its memoized `is_available()` answer. -/
structure EngineInst where
  name : String
  available : Bool
deriving Repr, DecidableEq

/-- A registered engine class: whether its constructor succeeds, and the
instance it then produces. -/
structure EngineClass where
  constructOk : Bool
  inst : EngineInst
deriving Repr, DecidableEq

/-- The class-level registry state: `_engines`, `_instances`,
`_fallback_order` (registry.py lines 20-22). -/
structure RegState where
  engines : List (String × EngineClass)
  instances : List (String × EngineInst)
  fallback_order : List String
deriving Repr, DecidableEq

/-- Python dict assignment `d[k] = v`: replace the value of an existing key
in place, otherwise append the new pair. -/
def assocSet {α : Type} : List (String × α) → String → α → List (String × α)
  | [], k, v => [(k, v)]
  | (k0, v0) :: rest, k, v =>
    if k0 = k then (k0, v) :: rest else (k0, v0) :: assocSet rest k v

/-- Stable insertion of one element into a key-sorted list: the new element
goes before the first strictly greater key, after equal keys already there.
-/
def insertByKey (key : String → Int) (a : String) : List String → List String
  | [] => [a]
  | b :: bs => if key b < key a then b :: insertByKey key a bs
               else a :: b :: bs

/-- Python `list.sort(key=...)` is a stable sort by key; modelled as a
stable insertion sort. -/
def sortByKey (key : String → Int) : List String → List String
  | [] => []
  | a :: as => insertByKey key a (sortByKey key as)

/-- `EngineRegistry.register` (registry.py lines 24-39).  The registry key
is the class name lower-cased with the substring "engine" removed, and —
exactly as on line 39 — the fallback order is re-sorted with the constant
key `lambda n: priority`, which refers to the priority argument of this one
call for every list element. -/
def register (st : RegState) (class_name : String) (cls : EngineClass)
    (priority : Int) : RegState :=
  let name := pyReplace (pyLower class_name) "engine" ""
  let engines := assocSet st.engines name cls
  if name ∈ st.fallback_order then
    { st with engines := engines }
  else
    { st with
      engines := engines
      fallback_order := sortByKey (fun _ => priority) (st.fallback_order ++ [name]) }

/-- `EngineRegistry.get` (registry.py lines 41-68): lower-case the name,
return the cached instance, otherwise construct and cache one, catching
constructor failures as `none`. -/
def get (st : RegState) (name : String) : Option EngineInst × RegState :=
  let name := pyLower name
  match alookup st.instances name with
  | some inst => (some inst, st)
  | none =>
    match alookup st.engines name with
    | some cls =>
      if cls.constructOk then
        (some cls.inst, { st with instances := st.instances ++ [(name, cls.inst)] })
      else
        (none, st)
    | none => (none, st)

/-- The loop of `EngineRegistry.get_best_available` (registry.py lines
89-95), threading the instance cache that `get` mutates. -/
def bestLoop : List String → RegState → Option EngineInst × RegState
  | [], st => (none, st)
  | name :: rest, st =>
    let (engine, st') := get st name
    match engine with
    | some e => if e.available then (some e, st') else bestLoop rest st'
    | none => bestLoop rest st'

/-- `EngineRegistry.get_best_available` (registry.py lines 82-95). -/
def get_best_available (st : RegState) : Option EngineInst × RegState :=
  bestLoop st.fallback_order st

/-- `register_default_engines` (registry.py lines 137-170) with every
optional import succeeding: Mock at priority 100, then Dia2 at 10, Kokoro
at 30, Piper at 50.  The availability of the three real engines depends on
the host, so it is a parameter; the mock is always available. -/
def defaultRegistry (diaAvail kokAvail pipAvail : Bool) : RegState :=
  let st0 : RegState := { engines := [], instances := [], fallback_order := [] }
  let st1 := register st0 "MockEngine" ⟨true, ⟨"mock", EngineLifecycle.mockAvailable⟩⟩ 100
  let st2 := register st1 "Dia2Engine" ⟨true, ⟨"dia2", diaAvail⟩⟩ 10
  let st3 := register st2 "KokoroEngine" ⟨true, ⟨"kokoro", kokAvail⟩⟩ 30
  register st3 "PiperEngine" ⟨true, ⟨"piper", pipAvail⟩⟩ 50

end EngineRegistry

namespace Renderer

/-- `parse_script` (renderer.py lines 55-82): keep the trimmed text of the
records whose trimmed text is non-empty (every record is a dict here;
non-dict records are skipped by the original and carry no data this model
needs). -/
def parse_script : List Seg → List ScriptSegment
  | [] => []
  | item :: rest =>
    if pyStrip item.text = "" then parse_script rest
    else { speaker := item.speaker, text := pyStrip item.text
           pause_after := item.pause_after } :: parse_script rest

/-- `validate_script` (renderer.py lines 85-94). -/
def validate_script (segments : List ScriptSegment) : Bool × Option String :=
  if segments = [] then (false, some "Script is empty")
  else
    let total_chars := (segments.map fun s => s.text.length).sum
    if total_chars > 100000 then
      (false, some ("Script too long (" ++ toString total_chars
                     ++ " chars). Maximum is 100,000."))
    else
      (true, none)

/-- The loop of `_chunk_segments` (renderer.py lines 149-166), carrying
`chunks`, `current` and `current_chars`. -/
def chunkGo (max_chars : Int) :
    List Seg → List (List Seg) → List Seg → Nat → List (List Seg)
  | [], chunks, current, _ =>
    if current ≠ [] then chunks ++ [current] else chunks
  | seg :: rest, chunks, current, current_chars =>
    let seg_len := seg.text.length
    if current ≠ [] ∧ (current_chars + seg_len : Int) > max_chars then
      chunkGo max_chars rest (chunks ++ [current]) [seg] seg_len
    else
      chunkGo max_chars rest chunks (current ++ [seg]) (current_chars + seg_len)

/-- `_chunk_segments` (renderer.py lines 141-167). -/
def _chunk_segments (segments : List Seg) (max_chars : Int) : List (List Seg) :=
  if max_chars ≤ 0 then [segments]
  else chunkGo max_chars segments [] [] 0

/-- Summed character count of a segment list, as the renderer computes it. -/
def totalChars (segs : List Seg) : Nat :=
  (segs.map fun s => s.text.length).sum

/-- `concatenate_wav` (renderer.py lines 97-138): byte-level container
reassembly, abstracted to concatenation of the segment buffers (the claims
never inspect the produced bytes). -/
def concatenate_wav (segments : List SynthesisSegment) : Bytes :=
  (segments.map fun s => s.audio_data).flatten

/-- One engine as the renderer sees it: the name and availability it
queries, the outcome of `load()` (ok, or the message of a raised error),
and the behaviour of `synthesize_multi` given segments, voice map and
format — `exn` models an unexpected exception escaping the engine call. -/
structure EngineB where
  name : String
  available : Bool
  loadB : PyResult Unit
  synth : List Seg → List (String × String) → String → PyResult SynthesisResult

/-- Outcome of the per-chunk loop of `render_audio` (renderer.py lines
240-267). -/
inductive LoopOut where
  | ok (segs : List SynthesisSegment) (dur : ℚ) (sr : Nat)
  | fail (err : Option String)
  | exn (msg : String)

/-- The per-chunk loop of `render_audio` (renderer.py lines 240-267),
also recording the trace of segment lists handed to `synthesize_multi`.
`result.sample_rate or sample_rate` keeps the old rate when the new one is
falsy (zero); a chunk with no per-speaker segments but truthy (non-empty)
audio is wrapped as one synthetic segment. -/
def chunkLoop (synth : List Seg → List (String × String) → String → PyResult SynthesisResult)
    (voice_map : List (String × String)) (format : String) :
    List (List Seg) → List SynthesisSegment → ℚ → Nat → List (List Seg) →
    LoopOut × List (List Seg)
  | [], all_segments, total_duration, sample_rate, trace =>
    (.ok all_segments total_duration sample_rate, trace)
  | chunk :: rest, all_segments, total_duration, sample_rate, trace =>
    match synth chunk voice_map format with
    | .exn m => (.exn m, trace ++ [chunk])
    | .ok result =>
      if result.success = false then (.fail result.error, trace ++ [chunk])
      else
        let sample_rate := if result.sample_rate = 0 then sample_rate
                           else result.sample_rate
        let all_segments :=
          if result.segments ≠ [] then all_segments ++ result.segments
          else if result.audio_data.getD [] ≠ [] then
            all_segments ++ [{ speaker := "chunk", text := ""
                               audio_data := result.audio_data.getD []
                               duration_seconds := result.duration_seconds
                               sample_rate := sample_rate }]
          else all_segments
        chunkLoop synth voice_map format rest all_segments
          (total_duration + result.duration_seconds) sample_rate
          (trace ++ [chunk])

/-- The tail of the bracketed region of `render_audio` (renderer.py lines
284-319): the success check on the synthesis result, audio concatenation,
and the directory/write step, whose filesystem outcome is abstracted as
`writeB` (ok, or the message of a raised error caught by the outer
handler).  Returns the render result, the loaded flag at exit of the
region, and the synthesis-call trace. -/
def afterSynth (e : EngineB) (output_path : String)
    (segments : List ScriptSegment) (result : SynthesisResult)
    (writeB : PyResult Unit) (loaded : Bool) (trace : List (List Seg)) :
    RenderResult × Bool × List (List Seg) :=
  if result.success = false then
    ({ success := false, error := result.error, engine_used := some e.name },
      loaded, trace)
  else
    let _audio : Bytes :=
      if result.segments ≠ [] then concatenate_wav result.segments
      else result.audio_data.getD []
    match writeB with
    | .exn m =>
      ({ success := false, error := some ("Render failed: " ++ m)
         engine_used := some e.name }, loaded, trace)
    | .ok _ =>
      ({ success := true, output_path := some output_path
         duration_seconds := result.duration_seconds
         segment_count := segments.length
         engine_used := some e.name, format := "wav" }, loaded, trace)

/-- The chunk list the dia2 branch of `render_audio` synthesizes
(renderer.py lines 232-234): the parsed segments re-shaped to
speaker/text dicts, split by `_chunk_segments` only when the total
character count exceeds the per-chunk limit. -/
def dia2Chunks (segments : List ScriptSegment) (max_chars : Int) :
    List (List Seg) :=
  let script_dicts : List Seg :=
    segments.map fun s => { speaker := s.speaker, text := s.text }
  let total_chars := (script_dicts.map fun s => s.text.length).sum
  if (total_chars : Int) > max_chars then _chunk_segments script_dicts max_chars
  else [script_dicts]

/-- The `try`/`except` body of `render_audio` (renderer.py lines 225-327):
load, chunked or single synthesis, concatenate and write; any modelled
exception is folded into a failed RenderResult by the `except` handler.
Returns the result, the engine loaded flag at region exit, and the trace of
segment lists handed to `synthesize_multi`. -/
def renderTry (e : EngineB) (loaded0 : Bool) (output_path : String)
    (segments : List ScriptSegment) (voice_map : List (String × String))
    (format : String) (max_chars : Int) (writeB : PyResult Unit) :
    RenderResult × Bool × List (List Seg) :=
  match e.loadB with
  | .exn m =>
    ({ success := false, error := some ("Render failed: " ++ m)
       engine_used := some e.name }, loaded0, [])
  | .ok _ =>
    let loaded := true
    let script_dicts : List Seg :=
      segments.map fun s => { speaker := s.speaker, text := s.text }
    let _total_chars := (script_dicts.map fun s => s.text.length).sum
    if e.name = "dia2" then
      match chunkLoop e.synth voice_map format
          (dia2Chunks segments max_chars) [] 0 24000 [] with
      | (.exn m, trace) =>
        ({ success := false, error := some ("Render failed: " ++ m)
           engine_used := some e.name }, loaded, trace)
      | (.fail err, trace) =>
        ({ success := false, error := err, engine_used := some e.name },
          loaded, trace)
      | (.ok all_segments total_duration sample_rate, trace) =>
        afterSynth e output_path segments
          { success := true, audio_data := none
            duration_seconds := total_duration, format := "wav"
            sample_rate := sample_rate, segments := all_segments }
          writeB loaded trace
    else
      match e.synth script_dicts voice_map format with
      | .exn m =>
        ({ success := false, error := some ("Render failed: " ++ m)
           engine_used := some e.name }, loaded, [script_dicts])
      | .ok result =>
        afterSynth e output_path segments result writeB loaded [script_dicts]

/-- `render_audio` (renderer.py lines 170-335): parse, validate, resolve
the engine, then run the bracketed region; the `finally` block unloads the
engine whenever it reports loaded.  The second component is the resolved
engine's loaded flag after the call. -/
def render_audio (script : List Seg) (engine : Option EngineB)
    (loaded0 : Bool) (output_path : String)
    (voice_map : List (String × String)) (format : String)
    (max_chars : Int) (writeB : PyResult Unit) :
    RenderResult × Bool × List (List Seg) :=
  let segments := parse_script script
  match validate_script segments with
  | (false, error) => ({ success := false, error := error }, loaded0, [])
  | (true, _) =>
    match engine with
    | none =>
      ({ success := false
         error := some "No audio engine available. Install kokoro: pip install kokoro" },
        loaded0, [])
    | some e =>
      if e.available = false then
        ({ success := false
           error := some ("Engine '" ++ e.name ++ "' is not available") },
          loaded0, [])
      else
        let (result, loadedExit, trace) :=
          renderTry e loaded0 output_path segments voice_map format max_chars writeB
        (result, if loadedExit then false else loadedExit, trace)

end Renderer

/-- The large multi-speaker engine as the renderer drives it: name "dia2",
available, loading succeeds, and `synthesize_multi` is the dia2
implementation over an abstract `_generate` backend. -/
def dia2EngineB (gen : String → SynthesisResult) : Renderer.EngineB :=
  { name := "dia2", available := true, loadB := .ok ()
    synth := fun segs _ _ => .ok (Dia2Engine.synthesize_multi gen segs) }

/-- A trivial always-succeeding engine used to witness the unload
guarantee. -/
def wEngine : Renderer.EngineB :=
  { name := "mock", available := true, loadB := .ok ()
    synth := fun _ _ _ =>
      .ok { success := true, audio_data := some [0], duration_seconds := 1 } }

/-- The `_generate` backend stub: always succeeds with one byte of audio. -/
def stubGen : String → SynthesisResult := fun _ =>
  { success := true, audio_data := some [1], duration_seconds := 1
    format := "wav", sample_rate := 24000 }

theorem char_toLower_toLower (c : Char) : c.toLower.toLower = c.toLower := by
  unfold Char.toLower
  by_cases h : c.toNat ≥ 65 ∧ c.toNat ≤ 90
  · rw [if_pos h]
    have hv : (c.toNat + 32).isValidChar := Or.inl (by omega)
    have ht : (Char.ofNat (c.toNat + 32)).toNat = c.toNat + 32 := by
      rw [Char.ofNat, dif_pos hv]
      rfl
    rw [if_neg]
    rw [ht]
    omega
  · rw [if_neg h, if_neg h]

/-- The per-character lower-casing model agrees with `String.toLower`. -/
theorem pyLower_eq_toLower (s : String) : pyLower s = s.toLower := by
  rw [String.toLower, String.map_eq]
  rfl

/-- Python lower-casing is idempotent: lowering an already lowered name is
the identity. -/
theorem pyLower_pyLower (s : String) : pyLower (pyLower s) = pyLower s := by
  simp only [pyLower, List.map_map]
  exact congrArg String.mk (List.map_congr_left fun c _ => char_toLower_toLower c)

/-- C10: registry lookup is case-insensitive — `EngineRegistry.get` first
normalizes the requested name to lower case, so `get name` and
`get name.toLower` agree on the returned instance and on the updated
registry state; in particular `get "MOCK"` and `get "mock"` yield the same
singleton. -/
theorem registry_get_case_insensitive (st : EngineRegistry.RegState)
    (name : String) :
    EngineRegistry.get st name = EngineRegistry.get st name.toLower := by
  unfold EngineRegistry.get
  rw [← pyLower_eq_toLower, pyLower_pyLower]

/-- C8: `validate_script` on the empty list fails with the message
"Script is empty" (which mentions emptiness), and on a non-empty list it
succeeds exactly when the summed character count of the segment texts is at
most 100,000 — the boundary itself passes, anything above is a hard
failure. -/
theorem validate_script_empty_and_boundary :
    Renderer.validate_script [] = (false, some "Script is empty")
    ∧ ∀ segments : List ScriptSegment, segments ≠ [] →
        ((Renderer.validate_script segments).1 = true ↔
          (segments.map fun s => s.text.length).sum ≤ 100000) := by
  refine ⟨rfl, fun segments h => ?_⟩
  unfold Renderer.validate_script
  rw [if_neg h]
  by_cases ht : (segments.map fun s => s.text.length).sum > 100000
  · rw [if_pos ht]
    simpa using ht
  · rw [if_neg ht]
    simpa using Nat.le_of_not_lt ht

theorem validate_script_empty_and_boundary_witness :
    (([⟨"narrator", "hi", 1/2⟩] : List ScriptSegment) ≠ [])
    ∧ ((Renderer.validate_script [⟨"narrator", "hi", 1/2⟩]).1 = true ↔
        (([⟨"narrator", "hi", 1/2⟩] : List ScriptSegment).map
          fun s => s.text.length).sum ≤ 100000) :=
  ⟨by simp, validate_script_empty_and_boundary.2 _ (by simp)⟩

/-- C1: the default bootstrap registers Mock first, then Dia2, Kokoro,
Piper, and the `sort(key=lambda n: priority)` on registry.py line 39 sorts
by a key that is constant across the list, so the stable sort leaves the
fallback order as the registration order `[mock, dia2, kokoro, piper]`;
with every engine available (dia2 included), `get_best_available` therefore
returns the mock engine, not dia2 — the code contradicts its own
docstrings, which promise ascending-priority order. -/
theorem default_best_available_is_mock :
    (EngineRegistry.defaultRegistry true true true).fallback_order
        = ["mock", "dia2", "kokoro", "piper"]
    ∧ ((EngineRegistry.get_best_available
          (EngineRegistry.defaultRegistry true true true)).1.map
        fun e => e.name) = some "mock" := by
  constructor <;> rfl

/-- C6 counterexample: `KokoroEngine` inherits `BaseEngine.load`, which
sets the loaded flag unconditionally — on an unavailable kokoro instance,
`load()` returns normally and leaves `is_loaded()` true, falsifying the
claim that every variant signals an unavailable-engine error and never sets
the flag while unavailable. -/
theorem kokoro_load_unavailable_cex :
    EngineLifecycle.kokoroLoad ⟨false, false⟩
      = (.ok (), (⟨false, true⟩ : EngState)) := rfl

/-- C6 (amended): `load()` on an unavailable, unloaded engine raises an
"engine unavailable" error and leaves the loaded flag false for the dia2
and piper variants only; kokoro and mock inherit the base `load`, which
sets the flag with no availability check (for mock the situation cannot
arise, since its `is_available` is constantly true). -/
theorem load_unavailable_amended (st : EngState) (backend : PyResult Unit)
    (hav : st.available = false) (hld : st.loaded = false) :
    EngineLifecycle.dia2Load st backend
        = (.exn "Dia2 engine not installed or repo not found.", st)
    ∧ EngineLifecycle.piperLoad st backend
        = (.exn "Piper not installed. Run: pip install piper-tts", st)
    ∧ EngineLifecycle.kokoroLoad st = (.ok (), { st with loaded := true })
    ∧ EngineLifecycle.mockAvailable = true := by
  refine ⟨?_, ?_, rfl, rfl⟩ <;>
    simp [EngineLifecycle.dia2Load, EngineLifecycle.piperLoad, hav, hld]

theorem load_unavailable_amended_witness :
    ((⟨false, false⟩ : EngState).available = false)
    ∧ ((⟨false, false⟩ : EngState).loaded = false)
    ∧ (EngineLifecycle.dia2Load ⟨false, false⟩ (.ok ())
        = (.exn "Dia2 engine not installed or repo not found.", ⟨false, false⟩)
      ∧ EngineLifecycle.piperLoad ⟨false, false⟩ (.ok ())
        = (.exn "Piper not installed. Run: pip install piper-tts", ⟨false, false⟩)
      ∧ EngineLifecycle.kokoroLoad ⟨false, false⟩
        = (.ok (), { (⟨false, false⟩ : EngState) with loaded := true })
      ∧ EngineLifecycle.mockAvailable = true) :=
  ⟨rfl, rfl, load_unavailable_amended ⟨false, false⟩ (.ok ()) rfl rfl⟩

namespace BaseEngine

theorem synthLoop_success_all (synth : String → Option String → SynthesisResult)
    (vm : List (String × String)) (fmt : String) :
    ∀ (segs : List Seg) (a : List Bytes) (d : ℚ) (r : List SynthesisSegment),
      (synthLoop synth vm fmt segs a d r).success = true →
      ∀ seg ∈ segs, pyStrip seg.text ≠ "" →
        (synth seg.text (alookup vm seg.speaker)).success = true
  | [], _, _, _, _, seg, hm, _ => absurd hm (List.not_mem_nil seg)
  | seg0 :: rest, a, d, r, h, seg, hm, hnb => by
    rw [synthLoop] at h
    rcases List.mem_cons.mp hm with heq | hm'
    · subst heq
      rw [if_neg hnb] at h
      by_cases hs : (synth seg.text (alookup vm seg.speaker)).success = true
      · exact hs
      · rw [if_neg hs] at h
        simp at h
    · by_cases hb : pyStrip seg0.text = ""
      · rw [if_pos hb] at h
        exact synthLoop_success_all synth vm fmt rest a d r h seg hm' hnb
      · rw [if_neg hb] at h
        by_cases hs : (synth seg0.text (alookup vm seg0.speaker)).success = true
        · rw [if_pos hs] at h
          exact synthLoop_success_all synth vm fmt rest _ _ _ h seg hm' hnb
        · rw [if_neg hs] at h
          simp at h

theorem synthLoop_firstFail (synth : String → Option String → SynthesisResult)
    (vm : List (String × String)) (fmt : String) :
    ∀ (segs : List Seg) (a : List Bytes) (d : ℚ) (r : List SynthesisSegment)
      (seg : Seg), firstFail synth vm segs = some seg →
      synthLoop synth vm fmt segs a d r
        = { success := false
            error := some ("Failed to synthesize segment for " ++ seg.speaker
                            ++ ": " ++ pyStr (synth seg.text (alookup vm seg.speaker)).error) }
  | [], _, _, _, seg, h => by simp [firstFail] at h
  | seg0 :: rest, a, d, r, seg, h => by
    rw [firstFail] at h
    rw [synthLoop]
    by_cases hb : pyStrip seg0.text = ""
    · rw [if_pos hb] at h ⊢
      exact synthLoop_firstFail synth vm fmt rest a d r seg h
    · rw [if_neg hb] at h ⊢
      by_cases hs : (synth seg0.text (alookup vm seg0.speaker)).success = true
      · rw [if_pos hs] at h
        rw [if_pos hs]
        exact synthLoop_firstFail synth vm fmt rest _ _ _ seg h
      · rw [if_neg hs] at h
        rw [if_neg hs]
        injection h with h
        subst h
        rfl

theorem synthLoop_all_blank (synth : String → Option String → SynthesisResult)
    (vm : List (String × String)) (fmt : String) :
    ∀ (segs : List Seg) (a : List Bytes) (d : ℚ) (r : List SynthesisSegment),
      (∀ seg ∈ segs, pyStrip seg.text = "") →
      synthLoop synth vm fmt segs a d r
        = { success := true, audio_data := some a.flatten
            duration_seconds := d, format := fmt, segments := r }
  | [], _, _, _, _ => rfl
  | seg0 :: rest, a, d, r, h => by
    rw [synthLoop, if_pos (h seg0 (List.mem_cons_self seg0 rest))]
    exact synthLoop_all_blank synth vm fmt rest a d r
      fun seg hm => h seg (List.mem_cons_of_mem seg0 hm)

theorem synthLoop_segs_nonempty (synth : String → Option String → SynthesisResult)
    (vm : List (String × String)) (fmt : String) :
    ∀ (segs : List Seg) (a : List Bytes) (d : ℚ) (r : List SynthesisSegment),
      r ≠ [] → (synthLoop synth vm fmt segs a d r).success = true →
      (synthLoop synth vm fmt segs a d r).segments ≠ []
  | [], _, _, _, hr, _ => hr
  | seg0 :: rest, a, d, r, hr, h => by
    rw [synthLoop] at h ⊢
    by_cases hb : pyStrip seg0.text = ""
    · rw [if_pos hb] at h ⊢
      exact synthLoop_segs_nonempty synth vm fmt rest a d r hr h
    · rw [if_neg hb] at h ⊢
      by_cases hs : (synth seg0.text (alookup vm seg0.speaker)).success = true
      · rw [if_pos hs] at h ⊢
        exact synthLoop_segs_nonempty synth vm fmt rest _ _ _ (by simp) h
      · rw [if_neg hs] at h
        simp at h

theorem synthLoop_nonblank_nonempty (synth : String → Option String → SynthesisResult)
    (vm : List (String × String)) (fmt : String) :
    ∀ (segs : List Seg) (a : List Bytes) (d : ℚ) (r : List SynthesisSegment),
      (∃ seg ∈ segs, pyStrip seg.text ≠ "") →
      (synthLoop synth vm fmt segs a d r).success = true →
      (synthLoop synth vm fmt segs a d r).segments ≠ []
  | [], _, _, _, hex, _ => by simp at hex
  | seg0 :: rest, a, d, r, hex, h => by
    rw [synthLoop] at h ⊢
    by_cases hb : pyStrip seg0.text = ""
    · rw [if_pos hb] at h ⊢
      rcases hex with ⟨seg, hm, hnb⟩
      rcases List.mem_cons.mp hm with heq | hm'
      · subst heq
        exact absurd hb hnb
      · exact synthLoop_nonblank_nonempty synth vm fmt rest a d r ⟨seg, hm', hnb⟩ h
    · rw [if_neg hb] at h ⊢
      by_cases hs : (synth seg0.text (alookup vm seg0.speaker)).success = true
      · rw [if_pos hs] at h ⊢
        exact synthLoop_segs_nonempty synth vm fmt rest _ _ _ (by simp) h
      · rw [if_neg hs] at h
        simp at h

end BaseEngine

/-- C5 counterexample: the fallback `synthesize_multi` on the non-empty,
whitespace-only segment list `[(narrator, "   ")]` returns a result with
`success=true`, empty (not even absent) audio bytes, and an empty segments
list — falsifying the invariant that success implies non-empty audio or
non-empty segments, on an input the claim explicitly includes. -/
theorem synthesize_multi_whitespace_cex :
    (BaseEngine.synthesize_multi okSynth [{ speaker := "narrator", text := "   " }]
        [] "mp3").success = true
    ∧ (BaseEngine.synthesize_multi okSynth [{ speaker := "narrator", text := "   " }]
        [] "mp3").audio_data = some []
    ∧ (BaseEngine.synthesize_multi okSynth [{ speaker := "narrator", text := "   " }]
        [] "mp3").segments = [] :=
  ⟨rfl, rfl, rfl⟩

/-- C5 (amended): for every synthesize behaviour, the fallback
`synthesize_multi` satisfies the invariant whenever at least one input
segment has non-whitespace text — success then guarantees a non-empty
segments list; but a non-empty, all-whitespace segment list yields
`success=true` with empty audio bytes and no segments, so the invariant
does not extend to that case. -/
theorem synthesize_multi_invariant_amended
    (synth : String → Option String → SynthesisResult)
    (segments : List Seg) (vm : List (String × String)) (fmt : String) :
    ((∃ seg ∈ segments, pyStrip seg.text ≠ "") →
      (BaseEngine.synthesize_multi synth segments vm fmt).success = true →
      (BaseEngine.synthesize_multi synth segments vm fmt).segments ≠ [])
    ∧ (segments ≠ [] → (∀ seg ∈ segments, pyStrip seg.text = "") →
        BaseEngine.synthesize_multi synth segments vm fmt
          = { success := true, audio_data := some [], duration_seconds := 0
              format := fmt, segments := [] }) := by
  constructor
  · intro hex h
    have hne : segments ≠ [] := by
      rcases hex with ⟨seg, hm, _⟩
      exact List.ne_nil_of_mem hm
    rw [BaseEngine.synthesize_multi, if_neg hne] at h ⊢
    exact BaseEngine.synthLoop_nonblank_nonempty synth vm fmt segments [] 0 [] hex h
  · intro hne hall
    rw [BaseEngine.synthesize_multi, if_neg hne]
    exact BaseEngine.synthLoop_all_blank synth vm fmt segments [] 0 [] hall

theorem synthesize_multi_invariant_amended_witness :
    (∃ seg ∈ ([{ speaker := "host", text := "hi" }] : List Seg),
        pyStrip seg.text ≠ "")
    ∧ (BaseEngine.synthesize_multi okSynth [{ speaker := "host", text := "hi" }]
        [] "mp3").segments ≠ [] :=
  ⟨⟨{ speaker := "host", text := "hi" }, List.mem_singleton.mpr rfl, by decide⟩,
    (synthesize_multi_invariant_amended okSynth
        [{ speaker := "host", text := "hi" }] [] "mp3").1
      ⟨{ speaker := "host", text := "hi" }, List.mem_singleton.mpr rfl, by decide⟩
      rfl⟩

/-- C7: the fallback `synthesize_multi` of single-speaker engines (i) fails
with "No segments provided" on the empty list, (ii) reports aggregate
success only if the underlying `synthesize` succeeded on every segment with
non-whitespace text, and (iii) on the first per-segment failure returns a
failure whose error names the failing speaker and embeds the underlying
error, with no audio data and no segments. -/
theorem fallback_synthesize_multi_spec
    (synth : String → Option String → SynthesisResult)
    (segments : List Seg) (vm : List (String × String)) (fmt : String) :
    (BaseEngine.synthesize_multi synth [] vm fmt
        = { success := false, error := some "No segments provided" })
    ∧ ((BaseEngine.synthesize_multi synth segments vm fmt).success = true →
        ∀ seg ∈ segments, pyStrip seg.text ≠ "" →
          (synth seg.text (alookup vm seg.speaker)).success = true)
    ∧ (∀ seg : Seg, BaseEngine.firstFail synth vm segments = some seg →
        BaseEngine.synthesize_multi synth segments vm fmt
          = { success := false
              error := some ("Failed to synthesize segment for " ++ seg.speaker
                              ++ ": "
                              ++ pyStr (synth seg.text (alookup vm seg.speaker)).error) }) := by
  refine ⟨rfl, ?_, ?_⟩
  · intro h seg hm hnb
    have hne : segments ≠ [] := List.ne_nil_of_mem hm
    rw [BaseEngine.synthesize_multi, if_neg hne] at h
    exact BaseEngine.synthLoop_success_all synth vm fmt segments [] 0 [] h seg hm hnb
  · intro seg hf
    have hne : segments ≠ [] := by
      intro h
      rw [h] at hf
      simp [BaseEngine.firstFail] at hf
    rw [BaseEngine.synthesize_multi, if_neg hne]
    exact BaseEngine.synthLoop_firstFail synth vm fmt segments [] 0 [] seg hf

theorem fallback_synthesize_multi_spec_witness :
    (BaseEngine.firstFail failSynth [] [{ speaker := "host", text := "hello" }]
        = some { speaker := "host", text := "hello" })
    ∧ BaseEngine.synthesize_multi failSynth
        [{ speaker := "host", text := "hello" }] [] "mp3"
      = { success := false
          error := some "Failed to synthesize segment for host: boom" } :=
  ⟨rfl,
    (fallback_synthesize_multi_spec failSynth
        [{ speaker := "host", text := "hello" }] [] "mp3").2.2
      { speaker := "host", text := "hello" } rfl⟩

theorem alookup_append {α : Type} (m : List (String × α)) (k : String) (v : α) (s : String) :
    alookup (m ++ [(k, v)]) s
      = match alookup m s with
        | some w => some w
        | none => if k = s then some v else none := by
  induction m with
  | nil => rfl
  | cons p rest ih =>
    obtain ⟨k0, v0⟩ := p
    by_cases h : k0 = s
    · simp [alookup, h]
    · simp only [List.cons_append, alookup, if_neg h]
      exact ih

theorem alookup_append_left {α : Type} (m l : List (String × α)) (s : String) (v : α)
    (h : alookup m s = some v) : alookup (m ++ l) s = some v := by
  induction m with
  | nil => simp [alookup] at h
  | cons p rest ih =>
    obtain ⟨k0, v0⟩ := p
    by_cases hk : k0 = s
    · simp [alookup, hk] at h ⊢
      exact h
    · simp only [alookup, if_neg hk] at h
      simp only [List.cons_append, alookup, if_neg hk]
      exact ih h

namespace Dia2Engine

theorem multiStep_blank (st : List (String × String) × Nat × List String)
    (seg : Seg) (h : pyStrip seg.text = "") : multiStep st seg = st := by
  unfold multiStep
  rw [if_pos h]

theorem multiStep_known (m : List (String × String)) (c : Nat)
    (parts : List String) (seg : Seg) (d : String)
    (h : pyStrip seg.text ≠ "") (hl : alookup m seg.speaker = some d) :
    multiStep (m, c, parts) seg
      = (m, c, parts ++ ["[" ++ d ++ "] " ++ pyStrip seg.text]) := by
  unfold multiStep
  rw [if_neg h]
  simp only [hl]

theorem multiStep_new (m : List (String × String)) (c : Nat)
    (parts : List String) (seg : Seg)
    (h : pyStrip seg.text ≠ "") (hl : alookup m seg.speaker = none) :
    multiStep (m, c, parts) seg
      = (m ++ [(seg.speaker, "S" ++ toString (min (c + 1) 2))], c + 1,
          parts ++ ["[" ++ ("S" ++ toString (min (c + 1) 2)) ++ "] "
                      ++ pyStrip seg.text]) := by
  unfold multiStep
  rw [if_neg h]
  simp only [hl]

theorem foldl_multiStep_keeps (segs : List Seg) :
    ∀ (m : List (String × String)) (c : Nat) (parts : List String)
      (s : String) (v : String), alookup m s = some v →
      alookup (segs.foldl multiStep (m, c, parts)).1 s = some v := by
  induction segs with
  | nil => intro m c parts s v h; exact h
  | cons seg0 rest ih =>
    intro m c parts s v h
    rw [List.foldl_cons]
    by_cases hb : pyStrip seg0.text = ""
    · rw [multiStep_blank _ _ hb]
      exact ih m c parts s v h
    · cases hl : alookup m seg0.speaker with
      | some d =>
        rw [multiStep_known m c parts seg0 d hb hl]
        exact ih m c _ s v h
      | none =>
        rw [multiStep_new m c parts seg0 hb hl]
        exact ih _ _ _ s v (alookup_append_left m _ s v h)

theorem foldl_multiStep_new (segs : List Seg) :
    ∀ (m : List (String × String)) (c : Nat) (parts : List String) (s : String),
      1 ≤ c → alookup m s = none →
      alookup (segs.foldl multiStep (m, c, parts)).1 s
        = if appears s segs then some "S2" else none := by
  induction segs with
  | nil =>
    intro m c parts s _ h
    simpa [appears] using h
  | cons seg0 rest ih =>
    intro m c parts s hc h
    rw [List.foldl_cons]
    by_cases hb : pyStrip seg0.text = ""
    · rw [multiStep_blank _ _ hb]
      rw [ih m c parts s hc h]
      simp [appears, hb]
    · cases hl : alookup m seg0.speaker with
      | some d =>
        rw [multiStep_known m c parts seg0 d hb hl]
        have hne : seg0.speaker ≠ s := by
          intro he
          rw [he, h] at hl
          exact Option.noConfusion hl
        rw [ih m c _ s hc h]
        simp [appears, hne]
      | none =>
        rw [multiStep_new m c parts seg0 hb hl]
        have hmark : "S" ++ toString (min (c + 1) 2) = "S2" := by
          have h2 : min (c + 1) 2 = 2 := by omega
          rw [h2]
          decide
        by_cases hs : seg0.speaker = s
        · subst hs
          have hm' : alookup (m ++ [(seg0.speaker, "S" ++ toString (min (c + 1) 2))])
              seg0.speaker = some "S2" := by
            rw [alookup_append m _ _ seg0.speaker, hl, if_pos rfl, hmark]
          rw [foldl_multiStep_keeps rest _ _ _ _ _ hm']
          simp [appears, hb]
        · have hm' : alookup (m ++ [(seg0.speaker, "S" ++ toString (min (c + 1) 2))]) s
              = none := by
            rw [alookup_append m _ _ s, h]
            simp [hs]
          rw [ih _ _ _ s (by omega) hm']
          simp [appears, hs]

theorem speakerMapping_lookup (segs : List Seg) (s : String)
    (h : appears s segs = true) :
    alookup (speakerMapping segs) s
      = some (if firstSpeaker segs = some s then "S1" else "S2") := by
  induction segs with
  | nil => simp [appears] at h
  | cons seg0 rest ih =>
    unfold speakerMapping multiState
    rw [List.foldl_cons]
    by_cases hb : pyStrip seg0.text = ""
    · rw [multiStep_blank _ _ hb]
      have h' : appears s rest = true := by
        simpa [appears, hb] using h
      have hres := ih h'
      unfold speakerMapping multiState at hres
      rw [hres, firstSpeaker, if_pos hb]
    · have hl : alookup ([] : List (String × String)) seg0.speaker = none := rfl
      rw [multiStep_new [] 0 [] seg0 hb hl]
      rw [firstSpeaker, if_neg hb]
      have hmark : "S" ++ toString (min (0 + 1) 2) = "S1" := by decide
      by_cases hs : seg0.speaker = s
      · subst hs
        have hm' : alookup ([] ++ [(seg0.speaker, "S" ++ toString (min (0 + 1) 2))])
            seg0.speaker = some "S1" := by
          simp only [List.nil_append, alookup, if_pos rfl]
          rw [hmark]
          simp
        rw [foldl_multiStep_keeps rest _ _ _ _ _ hm']
        simp
      · have h' : appears s rest = true := by
          simpa [appears, hs] using h
        have hm' : alookup ([] ++ [(seg0.speaker, "S" ++ toString (min (0 + 1) 2))]) s
            = none := by
          simp [alookup, hs]
        rw [foldl_multiStep_new rest _ _ _ s (by omega) hm', if_pos h']
        have hne : ¬ (some seg0.speaker = some s) := by
          intro he
          exact hs (Option.some.inj he)
        rw [if_neg hne]

end Dia2Engine

/-- C3 counterexample: with the three distinct speakers a, b, c introduced
in that order (all with non-blank text), the code clamps the marker index
with `min(speaker_count, 2)`, so the third new speaker c is tagged S2 — it
does not cycle back to S1 as the claim states; the produced script is
"[S1] x [S2] y [S2] z", not the cycled "[S1] x [S2] y [S1] z". -/
theorem dia2_third_speaker_cex :
    Dia2Engine.fullScript
        [{ speaker := "a", text := "x" }, { speaker := "b", text := "y" },
          { speaker := "c", text := "z" }]
      = "[S1] x [S2] y [S2] z"
    ∧ alookup (Dia2Engine.speakerMapping
        [{ speaker := "a", text := "x" }, { speaker := "b", text := "y" },
          { speaker := "c", text := "z" }]) "c" = some "S2"
    ∧ "S2" ≠ "S1" :=
  ⟨rfl, rfl, by decide⟩

/-- C3 (amended): markers are assigned by order of first appearance of each
distinct speaker with non-blank text — the first-seen speaker gets S1 and
every distinct speaker seen after it gets S2 (the marker index is clamped
at two, not cycled), so a third marker is never produced; the reference
example still yields the expected tagged script. -/
theorem dia2_speaker_marker_assignment (segments : List Seg) (s : String)
    (h : Dia2Engine.appears s segments = true) :
    alookup (Dia2Engine.speakerMapping segments) s
        = some (if Dia2Engine.firstSpeaker segments = some s then "S1" else "S2")
    ∧ Dia2Engine.fullScript
        [{ speaker := "narrator", text := "Hello world" },
          { speaker := "peer", text := "Hi there" },
          { speaker := "narrator", text := "How are you?" },
          { speaker := "peer", text := "Great!" }]
      = "[S1] Hello world [S2] Hi there [S1] How are you? [S2] Great!" :=
  ⟨Dia2Engine.speakerMapping_lookup segments s h, rfl⟩

theorem dia2_speaker_marker_assignment_witness :
    Dia2Engine.appears "peer"
        [{ speaker := "narrator", text := "Hello world" },
          { speaker := "peer", text := "Hi there" }] = true
    ∧ alookup (Dia2Engine.speakerMapping
        [{ speaker := "narrator", text := "Hello world" },
          { speaker := "peer", text := "Hi there" }]) "peer"
      = some (if Dia2Engine.firstSpeaker
            [{ speaker := "narrator", text := "Hello world" },
              { speaker := "peer", text := "Hi there" }] = some "peer"
          then "S1" else "S2") :=
  ⟨rfl,
    (dia2_speaker_marker_assignment
        [{ speaker := "narrator", text := "Hello world" },
          { speaker := "peer", text := "Hi there" }] "peer" rfl).1⟩

namespace Renderer

theorem totalChars_append (a b : List Seg) :
    totalChars (a ++ b) = totalChars a + totalChars b := by
  simp [totalChars]

theorem chunkGo_spec (max_chars : Int) :
    ∀ (segs : List Seg) (chunks : List (List Seg)) (current : List Seg)
      (cc : Nat), cc = totalChars current →
      (∀ c ∈ chunks, c ≠ [] ∧ ((totalChars c : Int) > max_chars → c.length = 1)) →
      (2 ≤ current.length → (totalChars current : Int) ≤ max_chars) →
      ((chunkGo max_chars segs chunks current cc).flatten
          = chunks.flatten ++ current ++ segs
        ∧ ∀ c ∈ chunkGo max_chars segs chunks current cc,
            c ≠ [] ∧ ((totalChars c : Int) > max_chars → c.length = 1))
  | [], chunks, current, cc, hcc, hP, hQ => by
    rw [chunkGo]
    by_cases hcur : current ≠ []
    · rw [if_pos hcur]
      refine ⟨by simp, fun c hc => ?_⟩
      rcases List.mem_append.mp hc with hin | hin
      · exact hP c hin
      · rw [List.mem_singleton.mp hin]
        refine ⟨hcur, fun hover => ?_⟩
        have hlen : current.length < 2 := by
          by_contra hge
          exact absurd (hQ (by omega)) (by omega)
        have hpos : current.length ≠ 0 := fun h0 =>
          hcur (List.eq_nil_of_length_eq_zero h0)
        omega
    · rw [if_neg hcur]
      push_neg at hcur
      subst hcur
      exact ⟨by simp, hP⟩
  | seg :: rest, chunks, current, cc, hcc, hP, hQ => by
    rw [chunkGo]
    by_cases hsplit : current ≠ [] ∧ (cc + seg.text.length : Int) > max_chars
    · rw [if_pos hsplit]
      have hP' : ∀ c ∈ chunks ++ [current],
          c ≠ [] ∧ ((totalChars c : Int) > max_chars → c.length = 1) := by
        intro c hc
        rcases List.mem_append.mp hc with hin | hin
        · exact hP c hin
        · rw [List.mem_singleton.mp hin]
          refine ⟨hsplit.1, fun hover => ?_⟩
          have hlen : current.length < 2 := by
            by_contra hge
            exact absurd (hQ (by omega)) (by omega)
          have hpos : current.length ≠ 0 := fun h0 =>
            hsplit.1 (List.eq_nil_of_length_eq_zero h0)
          omega
      have hrec := chunkGo_spec max_chars rest (chunks ++ [current]) [seg]
        seg.text.length (by simp [totalChars]) hP' (by simp)
      refine ⟨?_, hrec.2⟩
      rw [hrec.1]
      simp
    · rw [if_neg hsplit]
      have hcc' : cc + seg.text.length = totalChars (current ++ [seg]) := by
        rw [totalChars_append, hcc]
        simp [totalChars]
      have hQ' : 2 ≤ (current ++ [seg]).length →
          (totalChars (current ++ [seg]) : Int) ≤ max_chars := by
        intro hlen
        have hcur : current ≠ [] := by
          intro h0
          rw [h0] at hlen
          simp at hlen
        have hle : ¬ (cc + seg.text.length : Int) > max_chars := by
          intro hgt
          exact hsplit ⟨hcur, hgt⟩
        rw [← hcc']
        omega
      have hrec := chunkGo_spec max_chars rest chunks (current ++ [seg])
        (cc + seg.text.length) hcc' hP hQ'
      refine ⟨?_, hrec.2⟩
      rw [hrec.1]
      simp

end Renderer

/-- C9: for every segment list and positive character limit,
`_chunk_segments` splits the list into consecutive chunks — their
concatenation in order is exactly the input (nothing reordered, dropped,
duplicated, or split) — every chunk is non-empty, and any chunk whose
summed character count exceeds the limit is a single oversized segment. -/
theorem chunk_segments_spec (segments : List Seg) (max_chars : Int)
    (h : 0 < max_chars) :
    (Renderer._chunk_segments segments max_chars).flatten = segments
    ∧ ∀ c ∈ Renderer._chunk_segments segments max_chars,
        c ≠ [] ∧ ((Renderer.totalChars c : Int) > max_chars → c.length = 1) := by
  unfold Renderer._chunk_segments
  rw [if_neg (by omega)]
  have hrec := Renderer.chunkGo_spec max_chars segments [] [] 0
    (by simp [Renderer.totalChars]) (by simp) (by simp)
  exact ⟨by simpa using hrec.1, hrec.2⟩

theorem chunk_segments_spec_witness :
    (0 : Int) < 8
    ∧ ((Renderer._chunk_segments
          [{ speaker := "a", text := "aaaaaa" }, { speaker := "b", text := "bb" },
            { speaker := "b", text := "bbbbbb" }] 8).flatten
        = [{ speaker := "a", text := "aaaaaa" }, { speaker := "b", text := "bb" },
            { speaker := "b", text := "bbbbbb" }]
      ∧ ∀ c ∈ Renderer._chunk_segments
          [{ speaker := "a", text := "aaaaaa" }, { speaker := "b", text := "bb" },
            { speaker := "b", text := "bbbbbb" }] 8,
          c ≠ [] ∧ ((Renderer.totalChars c : Int) > 8 → c.length = 1)) :=
  ⟨by decide,
    chunk_segments_spec
      [{ speaker := "a", text := "aaaaaa" }, { speaker := "b", text := "bb" },
        { speaker := "b", text := "bbbbbb" }] 8 (by decide)⟩

namespace Renderer

theorem render_audio_eq_try (script : List Seg) (e : EngineB) (loaded0 : Bool)
    (output_path : String) (voice_map : List (String × String)) (format : String)
    (max_chars : Int) (writeB : PyResult Unit)
    (hv : (validate_script (parse_script script)).1 = true)
    (ha : e.available = true) :
    render_audio script (some e) loaded0 output_path voice_map format max_chars writeB
      = ((renderTry e loaded0 output_path (parse_script script) voice_map format
            max_chars writeB).1,
          if (renderTry e loaded0 output_path (parse_script script) voice_map format
                max_chars writeB).2.1 then false
          else (renderTry e loaded0 output_path (parse_script script) voice_map format
                max_chars writeB).2.1,
          (renderTry e loaded0 output_path (parse_script script) voice_map format
            max_chars writeB).2.2) := by
  unfold render_audio
  rcases hval : validate_script (parse_script script) with ⟨b, err⟩
  rw [hval] at hv
  simp only at hv
  subst hv
  simp only [hval, ha]
  cases htr : renderTry e loaded0 output_path (parse_script script) voice_map format
    max_chars writeB
  simp

theorem afterSynth_trace (e : EngineB) (output_path : String)
    (segments : List ScriptSegment) (result : SynthesisResult)
    (writeB : PyResult Unit) (loaded : Bool) (trace : List (List Seg)) :
    (afterSynth e output_path segments result writeB loaded trace).2.2 = trace := by
  unfold afterSynth
  by_cases h : result.success = false
  · rw [if_pos h]
  · rw [if_neg h]
    cases writeB <;> rfl

theorem chunkLoop_trace_mem
    (synth : List Seg → List (String × String) → String → PyResult SynthesisResult)
    (vm : List (String × String)) (fmt : String) :
    ∀ (chunks : List (List Seg)) (a : List SynthesisSegment) (d : ℚ) (sr : Nat)
      (tr : List (List Seg)) (c : List Seg),
      c ∈ (chunkLoop synth vm fmt chunks a d sr tr).2 → c ∈ tr ∨ c ∈ chunks
  | [], a, d, sr, tr, c, h => .inl h
  | chunk0 :: rest, a, d, sr, tr, c, h => by
    rw [chunkLoop] at h
    cases hs : synth chunk0 vm fmt with
    | exn m =>
      rw [hs] at h
      rcases List.mem_append.mp h with hin | hin
      · exact .inl hin
      · exact .inr (by simp [List.mem_singleton.mp hin])
    | ok result =>
      rw [hs] at h
      dsimp only at h
      by_cases hsc : result.success = false
      · rw [if_pos hsc] at h
        rcases List.mem_append.mp h with hin | hin
        · exact .inl hin
        · exact .inr (by simp [List.mem_singleton.mp hin])
      · rw [if_neg hsc] at h
        rcases chunkLoop_trace_mem synth vm fmt rest _ _ _ _ c h with hin | hin
        · rcases List.mem_append.mp hin with hin' | hin'
          · exact .inl hin'
          · exact .inr (by simp [List.mem_singleton.mp hin'])
        · exact .inr (List.mem_cons_of_mem chunk0 hin)

theorem dia2Chunks_mem (segments : List ScriptSegment) (max_chars : Int)
    (chunk : List Seg) (h : chunk ∈ dia2Chunks segments max_chars) :
    chunk ∈ _chunk_segments
        (segments.map fun s => { speaker := s.speaker, text := s.text : Seg })
        max_chars
      ∨ chunk = segments.map fun s => { speaker := s.speaker, text := s.text : Seg } := by
  unfold dia2Chunks at h
  by_cases hgt : (((segments.map fun s =>
      { speaker := s.speaker, text := s.text : Seg }).map
        fun s => s.text.length).sum : Int) > max_chars
  · rw [if_pos hgt] at h
    exact .inl h
  · rw [if_neg hgt] at h
    exact .inr (List.mem_singleton.mp h)

end Renderer

theorem renderTry_dia2_trace (gen : String → SynthesisResult) (loaded0 : Bool)
    (output_path : String) (segments : List ScriptSegment)
    (voice_map : List (String × String)) (format : String) (max_chars : Int)
    (writeB : PyResult Unit) (chunk : List Seg)
    (h : chunk ∈ (Renderer.renderTry (dia2EngineB gen) loaded0 output_path
        segments voice_map format max_chars writeB).2.2) :
    chunk ∈ Renderer.dia2Chunks segments max_chars := by
  rw [Renderer.renderTry] at h
  have hload : (dia2EngineB gen).loadB = .ok () := rfl
  rw [hload] at h
  dsimp only at h
  have hname : ((dia2EngineB gen).name = "dia2") := rfl
  rw [if_pos hname] at h
  rcases hloop : Renderer.chunkLoop (dia2EngineB gen).synth voice_map format
      (Renderer.dia2Chunks segments max_chars) [] 0 24000 [] with ⟨out, tr⟩
  rw [hloop] at h
  have hmem : chunk ∈ tr := by
    cases out with
    | exn m => exact h
    | fail err => exact h
    | ok a d sr =>
      rw [Renderer.afterSynth_trace] at h
      exact h
  have := Renderer.chunkLoop_trace_mem (dia2EngineB gen).synth voice_map format
    (Renderer.dia2Chunks segments max_chars) [] 0 24000 [] chunk
    (by rw [hloop]; exact hmem)
  rcases this with hin | hin
  · exact absurd hin (List.not_mem_nil chunk)
  · exact hin

/-- C2: whenever `render_audio` gets past parsing, validation and engine
resolution (including the availability re-check, so the bracketed
load/synthesize/write region is entered), the resolved engine reports
`is_loaded() = false` after the call on every exit path — synthesis
success, a handled failure returned as a RenderResult, or an unexpected
internal exception raised inside the region — because the `finally` block
unconditionally unloads an engine that reports loaded. -/
theorem render_audio_unloads (script : List Seg)
    (engine : Option Renderer.EngineB) (e : Renderer.EngineB) (loaded0 : Bool)
    (output_path : String) (voice_map : List (String × String))
    (format : String) (max_chars : Int) (writeB : PyResult Unit)
    (hv : (Renderer.validate_script (Renderer.parse_script script)).1 = true)
    (he : engine = some e) (ha : e.available = true) :
    (Renderer.render_audio script engine loaded0 output_path voice_map format
        max_chars writeB).2.1 = false := by
  subst he
  rw [Renderer.render_audio_eq_try script e loaded0 output_path voice_map format
    max_chars writeB hv ha]
  cases (Renderer.renderTry e loaded0 output_path (Renderer.parse_script script)
      voice_map format max_chars writeB).2.1 <;> simp

theorem render_audio_unloads_witness :
    ((Renderer.validate_script
        (Renderer.parse_script [{ speaker := "n", text := "hi" }])).1 = true)
    ∧ (wEngine.available = true)
    ∧ (Renderer.render_audio [{ speaker := "n", text := "hi" }] (some wEngine)
        false "out" [] "wav" 2000 (.ok ())).2.1 = false :=
  ⟨rfl, rfl,
    render_audio_unloads [{ speaker := "n", text := "hi" }] (some wEngine)
      wEngine false "out" [] "wav" 2000 (.ok ()) rfl rfl rfl⟩

/-- C4 counterexample: a three-segment dia2 render with per-chunk limit 8
splits into the chunks [a, b] and [b]; speaker b is tagged S2 in the first
chunk but S1 in the second — the speaker-to-marker mapping is rebuilt from
scratch inside each `synthesize_multi` call, so it IS reset between chunks
of the same render call, falsifying the claim that a speaker keeps the
marker of the first chunk it appeared in. -/
theorem render_dia2_marker_reset_cex :
    (Renderer.render_audio
        [{ speaker := "a", text := "aaaaaa" }, { speaker := "b", text := "bb" },
          { speaker := "b", text := "bbbbbb" }]
        (some (dia2EngineB stubGen)) false "out.wav" [] "wav" 8 (.ok ())).2.2
      = [[{ speaker := "a", text := "aaaaaa" }, { speaker := "b", text := "bb" }],
          [{ speaker := "b", text := "bbbbbb" }]]
    ∧ Dia2Engine.fullScript
        [{ speaker := "a", text := "aaaaaa" }, { speaker := "b", text := "bb" }]
      = "[S1] aaaaaa [S2] bb"
    ∧ Dia2Engine.fullScript [{ speaker := "b", text := "bbbbbb" }]
      = "[S1] bbbbbb"
    ∧ alookup (Dia2Engine.speakerMapping
        [{ speaker := "a", text := "aaaaaa" }, { speaker := "b", text := "bb" }]) "b"
      = some "S2"
    ∧ alookup (Dia2Engine.speakerMapping [{ speaker := "b", text := "bbbbbb" }]) "b"
      = some "S1" :=
  ⟨rfl, rfl, rfl, rfl, rfl⟩

/-- C4 (amended): within one `render_audio` call on the dia2 engine, every
segment list handed to `synthesize_multi` is one of the chunks produced by
`_chunk_segments` (or the whole parsed script when no chunking applies),
and inside each such chunk the speaker-to-marker mapping is computed afresh
— the chunk's first-appearing speaker gets S1 and every other speaker
appearing in that chunk gets S2 — so the mapping is reset between chunks,
and a speaker appearing in several chunks keeps the same marker only when
its first-appearance position agrees. -/
theorem render_dia2_chunk_markers (gen : String → SynthesisResult)
    (script : List Seg) (loaded0 : Bool) (output_path : String)
    (voice_map : List (String × String)) (format : String) (max_chars : Int)
    (writeB : PyResult Unit)
    (hv : (Renderer.validate_script (Renderer.parse_script script)).1 = true) :
    ∀ chunk ∈ (Renderer.render_audio script (some (dia2EngineB gen)) loaded0
        output_path voice_map format max_chars writeB).2.2,
      (chunk ∈ Renderer._chunk_segments
          ((Renderer.parse_script script).map fun s =>
            { speaker := s.speaker, text := s.text }) max_chars
        ∨ chunk = (Renderer.parse_script script).map fun s =>
            { speaker := s.speaker, text := s.text })
      ∧ ∀ s : String, Dia2Engine.appears s chunk = true →
          alookup (Dia2Engine.speakerMapping chunk) s
            = some (if Dia2Engine.firstSpeaker chunk = some s then "S1" else "S2") := by
  intro chunk hc
  refine ⟨?_, fun s h => Dia2Engine.speakerMapping_lookup chunk s h⟩
  rw [Renderer.render_audio_eq_try script (dia2EngineB gen) loaded0 output_path
    voice_map format max_chars writeB hv rfl] at hc
  simp only at hc
  exact Renderer.dia2Chunks_mem (Renderer.parse_script script) max_chars chunk
    (renderTry_dia2_trace gen loaded0 output_path (Renderer.parse_script script)
      voice_map format max_chars writeB chunk hc)

theorem render_dia2_chunk_markers_witness :
    ((Renderer.validate_script (Renderer.parse_script
        [{ speaker := "a", text := "aaaaaa" }, { speaker := "b", text := "bb" },
          { speaker := "b", text := "bbbbbb" }])).1 = true)
    ∧ ∀ chunk ∈ (Renderer.render_audio
        [{ speaker := "a", text := "aaaaaa" }, { speaker := "b", text := "bb" },
          { speaker := "b", text := "bbbbbb" }]
        (some (dia2EngineB stubGen)) false "out.wav" [] "wav" 8 (.ok ())).2.2,
      (chunk ∈ Renderer._chunk_segments
          ((Renderer.parse_script
            [{ speaker := "a", text := "aaaaaa" }, { speaker := "b", text := "bb" },
              { speaker := "b", text := "bbbbbb" }]).map fun s =>
            { speaker := s.speaker, text := s.text }) 8
        ∨ chunk = (Renderer.parse_script
            [{ speaker := "a", text := "aaaaaa" }, { speaker := "b", text := "bb" },
              { speaker := "b", text := "bbbbbb" }]).map fun s =>
            { speaker := s.speaker, text := s.text })
      ∧ ∀ s : String, Dia2Engine.appears s chunk = true →
          alookup (Dia2Engine.speakerMapping chunk) s
            = some (if Dia2Engine.firstSpeaker chunk = some s then "S1" else "S2") :=
  ⟨rfl,
    render_dia2_chunk_markers stubGen
      [{ speaker := "a", text := "aaaaaa" }, { speaker := "b", text := "bb" },
        { speaker := "b", text := "bbbbbb" }]
      false "out.wav" [] "wav" 8 (.ok ()) rfl⟩
